import Mathlib

/-!
Shallow embedding of `src/generate-mutations.ts` and `src/types.ts` of the
annotation-to-graph repository.

JavaScript strings are modelled as `List Char`.  The JS regular-expression
class `\s` and `String.prototype.trim`'s whitespace set are modelled by
`isJsWs` (the ECMAScript WhiteSpace and LineTerminator code points);
`String.prototype.toLowerCase` is modelled on the ASCII range (the source
only relies on ASCII case mapping for identifier derivation).  The call
`new Date().toISOString()` inside `generateEntityMutations` is modelled by
an explicit `now : Str` argument threaded through: it is the one effectful
read the generator performs.
-/

/-- A JavaScript string, modelled as its list of characters. -/
abbrev Str := List Char

/-- The ECMAScript whitespace set matched by the regex class `\s` and
removed by `String.prototype.trim`. -/
def isJsWs (c : Char) : Bool :=
  c == ' ' || c == '\t' || c == '\n' || c == '\r' || c == '\x0b' || c == '\x0c' ||
  c == '\u00a0' || c == '\u1680' ||
  (decide ('\u2000' ≤ c) && decide (c ≤ '\u200a')) ||
  c == '\u2028' || c == '\u2029' || c == '\u202f' || c == '\u205f' ||
  c == '\u3000' || c == '\ufeff'

/-- ASCII-range model of the case mapping applied by
`String.prototype.toLowerCase`. -/
def jsLowerChar (c : Char) : Char :=
  if 'A' ≤ c ∧ c ≤ 'Z' then Char.ofNat (c.toNat + 32) else c

/-- Model of `s.toLowerCase()`. -/
def jsLower (l : Str) : Str := l.map jsLowerChar

/-- Model of `s.trim()`: drop whitespace from both ends. -/
def jsTrim (l : Str) : Str :=
  ((l.dropWhile isJsWs).reverse.dropWhile isJsWs).reverse

/-- Model of `s.replace(/\s+/g, '_')`: every maximal run of whitespace
characters becomes a single underscore.  The Boolean argument records
whether the previous character belonged to a whitespace run. -/
def collapseWsAux : Bool → Str → Str
  | _, [] => []
  | inRun, c :: rest =>
    if isJsWs c then
      if inRun then collapseWsAux true rest else '_' :: collapseWsAux true rest
    else c :: collapseWsAux false rest

/-- Model of `s.replace(/\s+/g, '_')`. -/
def collapseWs (l : Str) : Str := collapseWsAux false l

/-- The character class `[a-z0-9_-]` kept by identifier normalization. -/
def isAllowedChar (c : Char) : Bool :=
  (decide ('a' ≤ c) && decide (c ≤ 'z')) ||
  (decide ('0' ≤ c) && decide (c ≤ '9')) || c == '_' || c == '-'

/-- Model of `s.replace(/[^a-z0-9_\-]/g, '')`. -/
def stripDisallowed (l : Str) : Str := l.filter isAllowedChar

/-- Model of `s.replace(/c/g, r)` for a single-character pattern `c`:
every occurrence of `c` is replaced by the string `r`. -/
def replaceAllChar (c : Char) (r : Str) : Str → Str
  | [] => []
  | x :: xs => (if x = c then r else [x]) ++ replaceAllChar c r xs

/-- `escapeGraphQL` from `generate-mutations.ts`: the five sequential
global replaces, backslash first. -/
def escapeGraphQL (s : Str) : Str :=
  replaceAllChar '\t' ['\\', 't']
    (replaceAllChar '\r' ['\\', 'r']
      (replaceAllChar '\n' ['\\', 'n']
        (replaceAllChar '"' ['\\', '"']
          (replaceAllChar '\\' ['\\', '\\'] s))))

/-- The closed set of annotation categories (`EntityCategory` in
`types.ts`). -/
inductive EntityCategory where
  | organization
  | program
  | service
  | benefit
  | citizen_attribute
  | value
  | official_role
  | region
  | delivery_node
  | document
  | domain_issue
deriving DecidableEq

/-- The JS string literal naming each category, as it appears in
annotation JSON and in mutation descriptions. -/
def categoryName : EntityCategory → Str
  | .organization => "organization".toList
  | .program => "program".toList
  | .service => "service".toList
  | .benefit => "benefit".toList
  | .citizen_attribute => "citizen_attribute".toList
  | .value => "value".toList
  | .official_role => "official_role".toList
  | .region => "region".toList
  | .delivery_node => "delivery_node".toList
  | .document => "document".toList
  | .domain_issue => "domain_issue".toList

/-- `DgraphTypeMapping` from `types.ts`. -/
structure DgraphTypeMapping where
  dgraphType : Str
  nameIdPrefix : Str
  nameField : Str
deriving DecidableEq

/-- `CATEGORY_TYPE_MAP` from `types.ts`: the static lookup from category
to its Dgraph type mapping. -/
def CATEGORY_TYPE_MAP : EntityCategory → DgraphTypeMapping
  | .organization =>
    { dgraphType := "_Indian_Union_Government_Ministry_".toList
      nameIdPrefix := "org".toList
      nameField := "indian_union_government_ministry".toList }
  | .program =>
    { dgraphType := "_Indian_Union_Government_Ministry_Program_".toList
      nameIdPrefix := "prog".toList
      nameField := "indian_union_government_ministry_program".toList }
  | .service =>
    { dgraphType := "_Indian_Union_Government_Service_".toList
      nameIdPrefix := "svc".toList
      nameField := "indian_union_government_service".toList }
  | .benefit =>
    { dgraphType := "_Indian_Union_Government_Service_Benefit_".toList
      nameIdPrefix := "ben".toList
      nameField := "indian_union_government_service_benefit".toList }
  | .citizen_attribute =>
    { dgraphType := "_Citizen_Attribute_Category_".toList
      nameIdPrefix := "cattr".toList
      nameField := "citizen_attribute_category".toList }
  | .value =>
    { dgraphType := "_Metric_".toList
      nameIdPrefix := "metric".toList
      nameField := "metric".toList }
  | .official_role =>
    { dgraphType := "_Indian_Government_Official_Role_".toList
      nameIdPrefix := "role".toList
      nameField := "indian_government_official_role".toList }
  | .region =>
    { dgraphType := "_Indian_State_Union_Territory_".toList
      nameIdPrefix := "region".toList
      nameField := "indian_state_union_territory".toList }
  | .delivery_node =>
    { dgraphType := "_Indian_Union_Government_Service_Delivery_Node_".toList
      nameIdPrefix := "dnode".toList
      nameField := "indian_union_government_service_delivery_node".toList }
  | .document =>
    { dgraphType := "_Source_".toList
      nameIdPrefix := "doc".toList
      nameField := "map_data_source_name".toList }
  | .domain_issue =>
    { dgraphType := "_Domain_Issue_".toList
      nameIdPrefix := "issue".toList
      nameField := "domain_issue".toList }

/-- `AnnotationEntity` from `types.ts`.  The `end` field is spelled
`endPos` (`end` is a Lean keyword); offsets are JS numbers used only as
data. -/
structure AnnotationEntity where
  id : Str
  text : Str
  start : Int
  endPos : Int
  category : EntityCategory
deriving DecidableEq

/-- `AnnotationRelationship` from `types.ts`. -/
structure AnnotationRelationship where
  id : Str
  source_entity_id : Str
  target_entity_id : Str
  type : Str
  label : Str
deriving DecidableEq

/-- The `document` descriptor of `AnnotationDocument`. -/
structure DocumentDescriptor where
  id : Str
  path : Str
  subject : Str
deriving DecidableEq

/-- `AnnotationDocument` from `types.ts`. -/
structure AnnotationDocument where
  document : DocumentDescriptor
  entities : List AnnotationEntity
  relationships : Option (List AnnotationRelationship)
  saved_at : Option Str
deriving DecidableEq

/-- `GeneratedMutation` from `types.ts`.  The optional `variables` field
is never set by the generator and is omitted from the model. -/
structure GeneratedMutation where
  description : Str
  mutation : Str
deriving DecidableEq

/-- The `summary` field of `MutationBatch`.  The JS
`Record<string, number>` of per-category counts is modelled as an
insertion-ordered association list. -/
structure MutationSummary where
  totalNameNodes : Nat
  totalEntityNodes : Nat
  totalRelationships : Nat
  categoryCounts : List (EntityCategory × Nat)
deriving DecidableEq

/-- `MutationBatch` from `types.ts`. -/
structure MutationBatch where
  documentId : Str
  documentPath : Str
  nameNodes : List GeneratedMutation
  entityNodes : List GeneratedMutation
  relationships : List GeneratedMutation
  summary : MutationSummary
deriving DecidableEq

/-- The normalization pipeline inside `generateNameId`:
`text.toLowerCase().trim().replace(/\s+/g, '_').replace(/[^a-z0-9_\-]/g, '')`. -/
def normalizeText (t : Str) : Str :=
  stripDisallowed (collapseWs (jsTrim (jsLower t)))

/-- `generateNameId` from `generate-mutations.ts`:
`` `${mapping.nameIdPrefix}::${normalized}` ``. -/
def generateNameId (e : AnnotationEntity) : Str :=
  (CATEGORY_TYPE_MAP e.category).nameIdPrefix ++ "::".toList ++ normalizeText e.text

/-- The trimmed text used as the dedup key in `generateNameMutations`. -/
def nameKey (e : AnnotationEntity) : Str := jsTrim e.text

/-- One step of building the `uniqueNames` JS `Map`: insert the entity
under its trimmed text unless that key is already present (insertion
order is kept, first occurrence wins). -/
def insertUnique (m : List (Str × AnnotationEntity)) (e : AnnotationEntity) :
    List (Str × AnnotationEntity) :=
  if m.any (fun p => decide (p.1 = nameKey e)) then m else m ++ [(nameKey e, e)]

/-- The `uniqueNames` map of `generateNameMutations`, built by the
`for`-loop over the entities. -/
def uniqueNames (es : List AnnotationEntity) : List (Str × AnnotationEntity) :=
  es.foldl insertUnique []

/-- The `_Name_` upsert mutation text built for one representative
entity. -/
def nameMutationText (e : AnnotationEntity) : Str :=
  "mutation \x7b\n  add_Name_(input: [\x7b\n    name: \"".toList ++
  escapeGraphQL (jsTrim e.text) ++
  "\"\n  \x7d], upsert: true) \x7b\n    _Name_ \x7b\n      name\n    \x7d\n  \x7d\n\x7d".toList

/-- The `GeneratedMutation` record built for one representative entity in
`generateNameMutations`. -/
def nameMutationOf (e : AnnotationEntity) : GeneratedMutation :=
  { description := "_Name_ node for \"".toList ++ e.text ++ "\"".toList
    mutation := nameMutationText e }

/-- `generateNameMutations` from `generate-mutations.ts`:
`Array.from(uniqueNames.values()).map(...)`. -/
def generateNameMutations (es : List AnnotationEntity) : List GeneratedMutation :=
  ((uniqueNames es).map Prod.snd).map nameMutationOf

/-- One entity's typed-node mutation (the body of the `entities.map`
callback in `generateEntityMutations`), with the callback's
`new Date().toISOString()` passed in as `now`. -/
def entityMutation (now : Str) (e : AnnotationEntity) : GeneratedMutation :=
  let mapping := CATEGORY_TYPE_MAP e.category
  let nameId := generateNameId e
  let dgType := mapping.dgraphType
  match e.category with
  | .value =>
    { description := "_Data_Value_ for \"".toList ++ e.text ++ "\" [".toList ++
        categoryName e.category ++ "]".toList
      mutation := "mutation \x7b\n  add_Data_Value_(input: [\x7b\n    categorical_value: \"".toList ++
        escapeGraphQL (jsTrim e.text) ++
        "\"\n  \x7d]) \x7b\n    _Data_Value_ \x7b\n      categorical_value\n    \x7d\n  \x7d\n\x7d".toList }
  | .benefit =>
    { description := dgType ++ " for \"".toList ++ e.text ++ "\" [".toList ++
        categoryName e.category ++ "]".toList
      mutation := "mutation \x7b\n  add".toList ++ dgType ++
        "(input: [\x7b\n    names: [\x7b name: \"".toList ++
        escapeGraphQL (jsTrim e.text) ++
        "\" \x7d]\n    node_created_on: \"".toList ++ now ++
        "\"\n  \x7d]) \x7b\n    ".toList ++ dgType ++
        " \x7b\n      id\n    \x7d\n  \x7d\n\x7d".toList }
  | .document =>
    { description := dgType ++ " for \"".toList ++ e.text ++ "\" [".toList ++
        categoryName e.category ++ "]".toList
      mutation := "mutation \x7b\n  add".toList ++ dgType ++
        "(input: [\x7b\n    name_id: \"".toList ++
        escapeGraphQL nameId ++
        "\"\n    names: [\x7b name: \"".toList ++
        escapeGraphQL (jsTrim e.text) ++
        "\" \x7d]\n  \x7d], upsert: true) \x7b\n    ".toList ++ dgType ++
        " \x7b\n      name_id\n    \x7d\n  \x7d\n\x7d".toList }
  | _ =>
    { description := dgType ++ " for \"".toList ++ e.text ++ "\" [".toList ++
        categoryName e.category ++ "]".toList
      mutation := "mutation \x7b\n  add".toList ++ dgType ++
        "(input: [\x7b\n    name_id: \"".toList ++
        escapeGraphQL nameId ++
        "\"\n    names: [\x7b name: \"".toList ++
        escapeGraphQL (jsTrim e.text) ++
        "\" \x7d]\n    node_created_on: \"".toList ++ now ++
        "\"\n  \x7d], upsert: true) \x7b\n    ".toList ++ dgType ++
        " \x7b\n      name_id\n    \x7d\n  \x7d\n\x7d".toList }

/-- `generateEntityMutations` from `generate-mutations.ts`. -/
def generateEntityMutations (now : Str) (es : List AnnotationEntity) :
    List GeneratedMutation :=
  es.map (entityMutation now)

/-- One step of the category-count loop:
`categoryCounts[e.category] = (categoryCounts[e.category] || 0) + 1` on a
JS record modelled as an insertion-ordered association list. -/
def bumpCount : List (EntityCategory × Nat) → EntityCategory → List (EntityCategory × Nat)
  | [], c => [(c, 1)]
  | (k, n) :: rest, c =>
    if k = c then (k, n + 1) :: rest else (k, n) :: bumpCount rest c

/-- The `categoryCounts` record built by `generateMutationBatch`. -/
def categoryCounts (es : List AnnotationEntity) : List (EntityCategory × Nat) :=
  es.foldl (fun m e => bumpCount m e.category) []

/-- Reading a key from the JS record model: the value stored for `c`, or
`0` when `c` is absent. -/
def lookupCount : List (EntityCategory × Nat) → EntityCategory → Nat
  | [], _ => 0
  | (k, n) :: rest, c => if k = c then n else lookupCount rest c

/-- `generateMutationBatch` from `generate-mutations.ts`, with the clock
reading used for the entity mutations passed in as `now`. -/
def generateMutationBatch (now : Str) (doc : AnnotationDocument) : MutationBatch :=
  let nameNodes := generateNameMutations doc.entities
  let entityNodes := generateEntityMutations now doc.entities
  { documentId := doc.document.id
    documentPath := doc.document.path
    nameNodes := nameNodes
    entityNodes := entityNodes
    relationships := []
    summary :=
      { totalNameNodes := nameNodes.length
        totalEntityNodes := entityNodes.length
        totalRelationships := 0
        categoryCounts := categoryCounts doc.entities } }

/-! ## Specification-side definitions -/

/-- Specification-side dedup (§4.3 of the spec): keep each entity whose
trimmed text has not occurred earlier, preserving first-seen order.  To be
compared with the `uniqueNames`-map construction embedded from the
source. -/
def specDedupFirst : List AnnotationEntity → List AnnotationEntity
  | [] => []
  | e :: rest =>
    e :: (specDedupFirst rest).filter (fun x => !(decide (nameKey x = nameKey e)))

/-- Specification-side per-character escaping table: exactly backslash,
double-quote, newline, carriage return and tab are escaped; every other
character passes through unchanged.  To be compared with the sequential
global replaces embedded from the source. -/
def escChar (c : Char) : Str :=
  if c = '\\' then ['\\', '\\']
  else if c = '"' then ['\\', '"']
  else if c = '\n' then ['\\', 'n']
  else if c = '\r' then ['\\', 'r']
  else if c = '\t' then ['\\', 't']
  else [c]

/-- Modelled from the spec: the wire format's (GraphQL's) string-literal
handling of one escaped character following a backslash.  GraphQL's
`\uXXXX` form is not modelled; the escaping function never produces it. -/
def unescapeChar (x : Char) : Str :=
  if x = '"' then ['"']
  else if x = '\\' then ['\\']
  else if x = '/' then ['/']
  else if x = 'b' then ['\x08']
  else if x = 'f' then ['\x0c']
  else if x = 'n' then ['\n']
  else if x = 'r' then ['\r']
  else if x = 't' then ['\t']
  else ['\\', x]

/-- Modelled from the spec: GraphQL string-literal parsing of a string
body — a backslash consumes the next character through `unescapeChar`,
every other character stands for itself.  This code lives in the
downstream store, not in the repository. -/
def graphqlUnescape : Str → Str
  | [] => []
  | c :: rest =>
    if c = '\\' then
      match rest with
      | [] => ['\\']
      | x :: rest2 => unescapeChar x ++ graphqlUnescape rest2
    else c :: graphqlUnescape rest

/-! ## Concrete inputs used in witnesses and counterexamples -/

/-- An organization entity with the spec's Scenario A text. -/
def exNHA : AnnotationEntity :=
  { id := "e1".toList
    text := "National Health Authority (NHA)".toList
    start := 0
    endPos := 31
    category := .organization }

/-- A second entity with the same text and category but different
identity fields. -/
def exNHA2 : AnnotationEntity :=
  { id := "e2".toList
    text := "National Health Authority (NHA)".toList
    start := 40
    endPos := 71
    category := .organization }

/-- A small organization entity. -/
def exOrgX : AnnotationEntity :=
  { id := "e1".toList, text := "X".toList, start := 0, endPos := 1,
    category := .organization }

/-- A benefit entity. -/
def exBenefit : AnnotationEntity :=
  { id := "e3".toList, text := "free checkup".toList, start := 0, endPos := 12,
    category := .benefit }

/-- A whitespace-only organization entity. -/
def exBlank : AnnotationEntity :=
  { id := "e4".toList, text := "   ".toList, start := 0, endPos := 3,
    category := .organization }

/-- A concrete relationship. -/
def exRel : AnnotationRelationship :=
  { id := "r1".toList
    source_entity_id := "e1".toList
    target_entity_id := "e2".toList
    type := "administers".toList
    label := "NHA administers X".toList }

/-- A concrete clock reading. -/
def exNow : Str := "2024-01-01T00:00:00.000Z".toList

/-- A second, different clock reading. -/
def exNow2 : Str := "2024-01-01T00:00:00.001Z".toList

/-- A document with no entities and one relationship. -/
def exDocRel : AnnotationDocument :=
  { document := { id := "d1".toList, path := "a.json".toList, subject := "s".toList }
    entities := []
    relationships := some [exRel]
    saved_at := none }

/-- A document with one organization entity and no relationships. -/
def exDocOrg : AnnotationDocument :=
  { document := { id := "d2".toList, path := "b.json".toList, subject := "s".toList }
    entities := [exOrgX]
    relationships := none
    saved_at := none }

/-! ## Claim theorems -/

/-- C1 counterexample: on a document holding one relationship, the batch
summary's `totalRelationships` is `0`, not the number of relationships
present in the input document. -/
theorem c1_relationships_not_counted :
    (generateMutationBatch exNow exDocRel).summary.totalRelationships ≠
      ((exDocRel.relationships.getD []).length) := by
  decide

/-- C1 (amended): for every clock reading and input document, the batch
produced by `generateMutationBatch` has an always-empty
`relationships` sequence and `summary.totalRelationships` always `0`:
relationships in the input are accepted but neither counted nor
translated into mutations. -/
theorem c1_relationships_empty_and_zero (now : Str) (doc : AnnotationDocument) :
    (generateMutationBatch now doc).relationships = [] ∧
      (generateMutationBatch now doc).summary.totalRelationships = 0 :=
  ⟨rfl, rfl⟩

/-- C1 witness: the amended claim at a concrete clock reading and
document. -/
theorem c1_relationships_empty_and_zero_witness :
    (generateMutationBatch exNow exDocRel).relationships = [] ∧
      (generateMutationBatch exNow exDocRel).summary.totalRelationships = 0 :=
  c1_relationships_empty_and_zero exNow exDocRel

set_option maxRecDepth 4096 in
/-- C2 counterexample: two calls of `generateMutationBatch` on the same
document that observe different clock readings yield different batches
(the typed-node mutation texts embed the observed timestamp), so the
batch is not a function of the document and mapping table alone. -/
theorem c2_not_time_independent :
    ¬ (generateMutationBatch exNow exDocOrg = generateMutationBatch exNow2 exDocOrg) := by
  decide

/-- C2 (amended): `generateMutationBatch` is a deterministic pure
function of the input document and the observed clock reading: every
batch component except the typed-node mutations is independent of the
clock, and two calls observing the same clock reading yield identical
batches, every field byte-for-byte equal. -/
theorem c2_deterministic_given_clock (doc : AnnotationDocument) (t1 t2 : Str) :
    (generateMutationBatch t1 doc).documentId = (generateMutationBatch t2 doc).documentId ∧
    (generateMutationBatch t1 doc).documentPath = (generateMutationBatch t2 doc).documentPath ∧
    (generateMutationBatch t1 doc).nameNodes = (generateMutationBatch t2 doc).nameNodes ∧
    (generateMutationBatch t1 doc).relationships = (generateMutationBatch t2 doc).relationships ∧
    (generateMutationBatch t1 doc).summary = (generateMutationBatch t2 doc).summary ∧
    (t1 = t2 → generateMutationBatch t1 doc = generateMutationBatch t2 doc) := by
  refine ⟨rfl, rfl, rfl, rfl, ?_, fun h => by rw [h]⟩
  simp [generateMutationBatch, generateEntityMutations]

/-- C2 witness: the amended claim at a concrete document and concrete
clock readings. -/
theorem c2_deterministic_given_clock_witness :
    (generateMutationBatch exNow exDocOrg).documentId = (generateMutationBatch exNow2 exDocOrg).documentId ∧
    (generateMutationBatch exNow exDocOrg).documentPath = (generateMutationBatch exNow2 exDocOrg).documentPath ∧
    (generateMutationBatch exNow exDocOrg).nameNodes = (generateMutationBatch exNow2 exDocOrg).nameNodes ∧
    (generateMutationBatch exNow exDocOrg).relationships = (generateMutationBatch exNow2 exDocOrg).relationships ∧
    (generateMutationBatch exNow exDocOrg).summary = (generateMutationBatch exNow2 exDocOrg).summary ∧
    (exNow = exNow2 → generateMutationBatch exNow exDocOrg = generateMutationBatch exNow2 exDocOrg) :=
  c2_deterministic_given_clock exDocOrg exNow exNow2

/-- C4: the typed-node builder emits exactly one typed-node mutation per
entity, in input order (it is a `map`), so the typed-node sequence has
the length of the entity sequence, for any clock reading, entity list
and document. -/
theorem c4_one_typed_mutation_per_entity (now : Str) (es : List AnnotationEntity)
    (doc : AnnotationDocument) :
    (generateEntityMutations now es).length = es.length ∧
      (generateEntityMutations now es) = es.map (entityMutation now) ∧
      (generateMutationBatch now doc).entityNodes.length = doc.entities.length := by
  refine ⟨?_, rfl, ?_⟩ <;> simp [generateEntityMutations, generateMutationBatch]

/-- C10: in every generated batch the summary totals agree with the
sequences they describe: `totalNameNodes` is the length of the
entry-node sequence, `totalEntityNodes` the length of the typed-node
sequence, and `totalRelationships` the length of the relationship
sequence. -/
theorem c10_summary_consistent (now : Str) (doc : AnnotationDocument) :
    (generateMutationBatch now doc).summary.totalNameNodes =
        (generateMutationBatch now doc).nameNodes.length ∧
      (generateMutationBatch now doc).summary.totalEntityNodes =
        (generateMutationBatch now doc).entityNodes.length ∧
      (generateMutationBatch now doc).summary.totalRelationships =
        (generateMutationBatch now doc).relationships.length :=
  ⟨rfl, rfl, rfl⟩

/-- C9: an entity whose text normalizes to the empty string is passed
through without error: its identifier is exactly the category's prefix
followed by `::` with nothing after it. -/
theorem c9_empty_normalization (e : AnnotationEntity)
    (h : normalizeText e.text = []) :
    generateNameId e = (CATEGORY_TYPE_MAP e.category).nameIdPrefix ++ "::".toList := by
  simp [generateNameId, h]

/-- C9 witness: a whitespace-only organization entity normalizes to the
empty string and its identifier is the bare prefix and separator. -/
theorem c9_empty_normalization_witness :
    normalizeText exBlank.text = [] ∧
      generateNameId exBlank =
        (CATEGORY_TYPE_MAP exBlank.category).nameIdPrefix ++ "::".toList ∧
      generateNameId exBlank = "org::".toList :=
  ⟨by decide, c9_empty_normalization exBlank (by decide), by decide⟩

/-- C5: identifier derivation returns the category's prefix, then `::`,
then the text lowercased, trimmed, whitespace runs collapsed to single
underscores and characters outside `[a-z0-9_-]` removed; it depends only
on the text and category (equal pairs give byte-identical identifiers);
every character after the separator is in the allowed class; and the
Scenario A text under category organization derives
`org::national_health_authority_nha`. -/
theorem c5_identifier_derivation (e1 e2 : AnnotationEntity)
    (ht : e1.text = e2.text) (hc : e1.category = e2.category) :
    generateNameId e1 =
        (CATEGORY_TYPE_MAP e1.category).nameIdPrefix ++ "::".toList ++
          stripDisallowed (collapseWs (jsTrim (jsLower e1.text))) ∧
      generateNameId e1 = generateNameId e2 ∧
      (∀ c ∈ normalizeText e1.text, isAllowedChar c = true) ∧
      generateNameId exNHA = "org::national_health_authority_nha".toList ∧
      generateNameId exNHA2 = generateNameId exNHA := by
  refine ⟨rfl, by simp [generateNameId, normalizeText, ht, hc], ?_, by decide, by decide⟩
  intro c hmem
  simp only [normalizeText, stripDisallowed, List.mem_filter] at hmem
  exact hmem.2

/-- C5 witness: the theorem applied to two concrete entities sharing
text and category but differing in id and offsets. -/
theorem c5_identifier_derivation_witness :
    generateNameId exNHA =
        (CATEGORY_TYPE_MAP exNHA.category).nameIdPrefix ++ "::".toList ++
          stripDisallowed (collapseWs (jsTrim (jsLower exNHA.text))) ∧
      generateNameId exNHA = generateNameId exNHA2 ∧
      (∀ c ∈ normalizeText exNHA.text, isAllowedChar c = true) ∧
      generateNameId exNHA = "org::national_health_authority_nha".toList ∧
      generateNameId exNHA2 = generateNameId exNHA :=
  c5_identifier_derivation exNHA exNHA2 rfl rfl

/-- A single-character global replace distributes over append. -/
theorem replaceAllChar_append (c : Char) (r : Str) (l1 l2 : Str) :
    replaceAllChar c r (l1 ++ l2) = replaceAllChar c r l1 ++ replaceAllChar c r l2 := by
  induction l1 with
  | nil => rfl
  | cons x xs ih => simp [replaceAllChar, ih]

/-- The five sequential replaces distribute over append. -/
theorem escapeGraphQL_append (l1 l2 : Str) :
    escapeGraphQL (l1 ++ l2) = escapeGraphQL l1 ++ escapeGraphQL l2 := by
  simp [escapeGraphQL, replaceAllChar_append]

/-- On a single character the five sequential replaces agree with the
per-character escaping table. -/
theorem escapeGraphQL_singleton (c : Char) : escapeGraphQL [c] = escChar c := by
  by_cases h1 : c = '\\'
  · subst h1; decide
  · by_cases h2 : c = '"'
    · subst h2; decide
    · by_cases h3 : c = '\n'
      · subst h3; decide
      · by_cases h4 : c = '\r'
        · subst h4; decide
        · by_cases h5 : c = '\t'
          · subst h5; decide
          · simp [escapeGraphQL, replaceAllChar, escChar, h1, h2, h3, h4, h5]

/-- `escapeGraphQL` is the per-character map `escChar`: exactly
backslash, double-quote, newline, carriage return and tab are escaped
and every other character is left unchanged. -/
theorem escapeGraphQL_eq_bind (s : Str) : escapeGraphQL s = s.flatMap escChar := by
  induction s with
  | nil => rfl
  | cons c cs ih =>
    have h : (c :: cs : Str) = [c] ++ cs := rfl
    rw [h, escapeGraphQL_append, escapeGraphQL_singleton, ih]
    simp

/-- GraphQL string-literal unescaping undoes `escapeGraphQL`. -/
theorem graphqlUnescape_escape (s : Str) : graphqlUnescape (escapeGraphQL s) = s := by
  rw [escapeGraphQL_eq_bind]
  induction s with
  | nil => rfl
  | cons c cs ih =>
    show graphqlUnescape (escChar c ++ cs.flatMap escChar) = c :: cs
    by_cases h1 : c = '\\'
    · subst h1; simpa [escChar, graphqlUnescape, unescapeChar] using ih
    · by_cases h2 : c = '"'
      · subst h2; simpa [escChar, graphqlUnescape, unescapeChar] using ih
      · by_cases h3 : c = '\n'
        · subst h3; simpa [escChar, graphqlUnescape, unescapeChar] using ih
        · by_cases h4 : c = '\r'
          · subst h4; simpa [escChar, graphqlUnescape, unescapeChar] using ih
          · by_cases h5 : c = '\t'
            · subst h5; simpa [escChar, graphqlUnescape, unescapeChar] using ih
            · simp only [escChar, h1, h2, h3, h4, h5, if_false, List.singleton_append]
              rw [graphqlUnescape.eq_def]
              simp only [if_neg h1]
              rw [ih]

/-- C6: the string-escaping function escapes exactly the five characters
backslash, double-quote, newline, carriage return and tab (it equals the
per-character table `escChar`, which fixes every other character), and
escaping followed by GraphQL string-literal unescaping returns the
original string — in particular on the adjacent-special-character
example `a"\b`. -/
theorem c6_escape_roundtrip (s : Str) :
    escapeGraphQL s = s.flatMap escChar ∧
      graphqlUnescape (escapeGraphQL s) = s ∧
      graphqlUnescape (escapeGraphQL "a\"\\b".toList) = "a\"\\b".toList :=
  ⟨escapeGraphQL_eq_bind s, graphqlUnescape_escape s, graphqlUnescape_escape _⟩

/-- Bumping one category's slot raises exactly that category's reading
by one. -/
theorem lookupCount_bump (m : List (EntityCategory × Nat)) (c c2 : EntityCategory) :
    lookupCount (bumpCount m c) c2 =
      lookupCount m c2 + (if c = c2 then 1 else 0) := by
  induction m with
  | nil =>
    by_cases h : c = c2 <;> simp [bumpCount, lookupCount, h]
  | cons p rest ih =>
    obtain ⟨k, n⟩ := p
    by_cases hk : k = c
    · subst hk
      by_cases h2 : k = c2 <;> simp [bumpCount, lookupCount, h2]
    · by_cases h2 : k = c2
      · subst h2
        have hc : ¬ c = k := fun h => hk h.symm
        simp [bumpCount, lookupCount, hk, hc]
      · simp [bumpCount, lookupCount, hk, h2, ih]

/-- Bumping a slot raises the sum of all readings by one. -/
theorem sumCounts_bump (m : List (EntityCategory × Nat)) (c : EntityCategory) :
    ((bumpCount m c).map Prod.snd).sum = (m.map Prod.snd).sum + 1 := by
  induction m with
  | nil => simp [bumpCount]
  | cons p rest ih =>
    obtain ⟨k, n⟩ := p
    by_cases hk : k = c <;> simp [bumpCount, hk, ih] <;> omega

/-- Folding the count loop over a list adds, per category, the number of
its entities with that category. -/
theorem lookupCount_foldl (es : List AnnotationEntity)
    (m : List (EntityCategory × Nat)) (c : EntityCategory) :
    lookupCount (es.foldl (fun m e => bumpCount m e.category) m) c =
      lookupCount m c + es.countP (fun e => decide (e.category = c)) := by
  induction es generalizing m with
  | nil => simp
  | cons e rest ih =>
    rw [List.foldl_cons, ih, lookupCount_bump, List.countP_cons]
    by_cases h : e.category = c
    · simp only [h, if_pos rfl, decide_eq_true_eq, if_true]
      omega
    · simp [h]

/-- Folding the count loop over a list adds its length to the sum of all
readings. -/
theorem sumCounts_foldl (es : List AnnotationEntity)
    (m : List (EntityCategory × Nat)) :
    (((es.foldl (fun m e => bumpCount m e.category) m)).map Prod.snd).sum =
      (m.map Prod.snd).sum + es.length := by
  induction es generalizing m with
  | nil => simp
  | cons e rest ih =>
    rw [List.foldl_cons, ih, sumCounts_bump, List.length_cons]
    omega

/-- C7: in every generated batch, each category's reading in the summary
counts equals the number of input entities with that category, and the
sum of all per-category readings equals the total number of entities. -/
theorem c7_category_counts (now : Str) (doc : AnnotationDocument) :
    (∀ c, lookupCount (generateMutationBatch now doc).summary.categoryCounts c =
        doc.entities.countP (fun e => decide (e.category = c))) ∧
      ((generateMutationBatch now doc).summary.categoryCounts.map Prod.snd).sum =
        doc.entities.length := by
  constructor
  · intro c
    have h := lookupCount_foldl doc.entities [] c
    simpa [generateMutationBatch, categoryCounts, lookupCount] using h
  · have h := sumCounts_foldl doc.entities []
    simpa [generateMutationBatch, categoryCounts] using h

/-- The key-value pair the `uniqueNames` map stores for an entity. -/
def toPair (e : AnnotationEntity) : Str × AnnotationEntity := (nameKey e, e)

/-- First-occurrence dedup commutes with any filter that depends only on
the dedup key. -/
theorem specDedupFirst_filter (q : Str → Bool) (l : List AnnotationEntity) :
    specDedupFirst (l.filter (fun x => q (nameKey x))) =
      (specDedupFirst l).filter (fun x => q (nameKey x)) := by
  induction l with
  | nil => rfl
  | cons e rest ih =>
    by_cases h : q (nameKey e)
    · rw [List.filter_cons, if_pos h, specDedupFirst, ih, specDedupFirst,
        List.filter_cons, if_pos h, List.filter_filter, List.filter_filter]
      exact congrArg (fun t => e :: t) (List.filter_congr fun x _ => Bool.and_comm _ _)
    · have hf : q (nameKey e) = false := Bool.eq_false_iff.mpr h
      rw [List.filter_cons, if_neg (by simp [hf]), ih, specDedupFirst,
        List.filter_cons, if_neg (by simp [hf]), List.filter_filter]
      refine List.filter_congr fun x _ => ?_
      by_cases hk : nameKey x = nameKey e
      · simp [hk, hf]
      · simp [hk]

/-- The `for`-loop building the `uniqueNames` map, started from any
accumulated map `m`, appends exactly the first-occurrence dedup of the
entities whose keys `m` does not already hold. -/
theorem uniqueNames_foldl (es : List AnnotationEntity) (m : List (Str × AnnotationEntity)) :
    es.foldl insertUnique m =
      m ++ (specDedupFirst (es.filter
        (fun x => !(m.any (fun p => decide (p.1 = nameKey x)))))).map toPair := by
  induction es generalizing m with
  | nil => simp [specDedupFirst]
  | cons e rest ih =>
    rw [List.foldl_cons]
    by_cases h : m.any (fun p => decide (p.1 = nameKey e))
    · rw [show insertUnique m e = m by simp [insertUnique, h], ih, List.filter_cons,
        if_neg (by simp [h])]
    · have hne : insertUnique m e = m ++ [toPair e] := by
        simp [insertUnique, toPair, h]
      rw [hne, ih, List.filter_cons, if_pos (by simp [h]), specDedupFirst,
        List.append_assoc, List.map_cons, List.singleton_append]
      congr 2
      have hsplit : rest.filter
            (fun x => !((m ++ [toPair e]).any (fun p => decide (p.1 = nameKey x)))) =
          (rest.filter (fun x => !(m.any (fun p => decide (p.1 = nameKey x))))).filter
            (fun x => !(decide (nameKey x = nameKey e))) := by
        rw [List.filter_filter]
        refine List.filter_congr fun x _ => ?_
        by_cases hk : nameKey x = nameKey e
        · simp [List.any_append, toPair, hk]
        · simp [List.any_append, toPair, hk, Ne.symm hk]
      rw [hsplit]
      exact congrArg (List.map toPair)
        (specDedupFirst_filter (fun s => !(decide (s = nameKey e))) _)

/-- `generateNameMutations` refines the spec's §4.3 algorithm: it is the
mutation built for each entity of the first-occurrence dedup of the
input, in first-seen order. -/
theorem generateNameMutations_eq (es : List AnnotationEntity) :
    generateNameMutations es = (specDedupFirst es).map nameMutationOf := by
  unfold generateNameMutations uniqueNames
  rw [uniqueNames_foldl es []]
  simp [toPair, List.map_map, Function.comp]

/-- The dedup keeps a subsequence of the input: representatives appear
in input order. -/
theorem specDedupFirst_sublist (l : List AnnotationEntity) :
    (specDedupFirst l).Sublist l := by
  induction l with
  | nil => simp [specDedupFirst]
  | cons e rest ih =>
    rw [specDedupFirst]
    exact ((List.filter_sublist _).trans ih).cons₂ e

/-- The dedup's trimmed keys are pairwise distinct. -/
theorem nodup_keys_specDedupFirst (l : List AnnotationEntity) :
    ((specDedupFirst l).map nameKey).Nodup := by
  induction l with
  | nil => simp [specDedupFirst]
  | cons e rest ih =>
    rw [specDedupFirst, List.map_cons]
    refine List.Nodup.cons ?_ ?_
    · intro hmem
      obtain ⟨x, hx, hkx⟩ := List.mem_map.mp hmem
      have hp := List.of_mem_filter hx
      simp [hkx] at hp
    · exact List.Nodup.sublist ((List.filter_sublist _).map nameKey) ih

/-- Every trimmed key of the input survives the dedup. -/
theorem keys_mem_specDedupFirst (l : List AnnotationEntity) (k : Str)
    (h : k ∈ l.map nameKey) : k ∈ (specDedupFirst l).map nameKey := by
  induction l with
  | nil => simp at h
  | cons e rest ih =>
    rw [List.map_cons] at h
    rw [specDedupFirst, List.map_cons]
    rcases List.mem_cons.mp h with he | hr
    · exact List.mem_cons.mpr (Or.inl he)
    · by_cases hk : k = nameKey e
      · exact List.mem_cons.mpr (Or.inl hk)
      · refine List.mem_cons.mpr (Or.inr ?_)
        obtain ⟨x, hx, hkx⟩ := List.mem_map.mp (ih hr)
        refine List.mem_map.mpr ⟨x, List.mem_filter.mpr ⟨hx, ?_⟩, hkx⟩
        simp [hkx, hk]

/-- C3: the entry-node builder emits exactly one entry-node mutation per
distinct trimmed entity text: it equals the per-representative mutation
over the first-occurrence dedup of the input, the dedup is a
subsequence of the input (first-seen order preserved, the kept
representative being the first occurrence), its trimmed keys are
pairwise distinct, and every trimmed key of the input is represented. -/
theorem c3_entry_node_dedup (es : List AnnotationEntity) :
    generateNameMutations es = (specDedupFirst es).map nameMutationOf ∧
      (specDedupFirst es).Sublist es ∧
      ((specDedupFirst es).map nameKey).Nodup ∧
      (∀ k : Str, k ∈ (specDedupFirst es).map nameKey ↔ k ∈ es.map nameKey) :=
  ⟨generateNameMutations_eq es, specDedupFirst_sublist es, nodup_keys_specDedupFirst es,
    fun k => ⟨fun h => ((specDedupFirst_sublist es).map nameKey).subset h,
      fun h => keys_mem_specDedupFirst es k h⟩⟩

/-- A benefit entity with empty text, used to expose the fixed literal
skeleton of the benefit mutation template. -/
def emptyBenefit : AnnotationEntity :=
  { id := [], text := [], start := 0, endPos := 0, category := .benefit }

/-- The benefit-category mutation template with the escaped text and the
timestamp both empty: the fixed literal skeleton every benefit mutation
is built around. -/
def benefitSkeleton : Str :=
  (entityMutation [] emptyBenefit).mutation

set_option maxRecDepth 8192 in
/-- C8: a benefit-category entity's typed-node mutation is exactly the
nested-creation template: it embeds an inline entry-node creation (the
escaped trimmed text inside a `names` field, not a reference by
identifier) and a creation timestamp field, and the template's fixed
skeleton contains no `name_id` field and no `upsert` flag. -/
theorem c8_benefit_inline_creation (now : Str) (e : AnnotationEntity)
    (h : e.category = .benefit) :
    (entityMutation now e).mutation =
        "mutation \x7b\n  add".toList ++
          "_Indian_Union_Government_Service_Benefit_".toList ++
          "(input: [\x7b\n    names: [\x7b name: \"".toList ++
          escapeGraphQL (jsTrim e.text) ++
          "\" \x7d]\n    node_created_on: \"".toList ++ now ++
          "\"\n  \x7d]) \x7b\n    ".toList ++
          "_Indian_Union_Government_Service_Benefit_".toList ++
          " \x7b\n      id\n    \x7d\n  \x7d\n\x7d".toList ∧
      ("names: [\x7b name: \"".toList ++ escapeGraphQL (jsTrim e.text) ++
          "\" \x7d]".toList) <:+: (entityMutation now e).mutation ∧
      ("node_created_on: \"".toList ++ now ++ "\"".toList) <:+:
        (entityMutation now e).mutation ∧
      ¬ ("name_id".toList <:+: benefitSkeleton) ∧
      ¬ ("upsert".toList <:+: benefitSkeleton) := by
  have hm : (entityMutation now e).mutation =
      "mutation \x7b\n  add".toList ++
        "_Indian_Union_Government_Service_Benefit_".toList ++
        "(input: [\x7b\n    names: [\x7b name: \"".toList ++
        escapeGraphQL (jsTrim e.text) ++
        "\" \x7d]\n    node_created_on: \"".toList ++ now ++
        "\"\n  \x7d]) \x7b\n    ".toList ++
        "_Indian_Union_Government_Service_Benefit_".toList ++
        " \x7b\n      id\n    \x7d\n  \x7d\n\x7d".toList := by
    simp [entityMutation, h, CATEGORY_TYPE_MAP, List.append_assoc]
  refine ⟨hm, ?_, ?_, by decide, by decide⟩
  · refine ⟨"mutation \x7b\n  add".toList ++
      "_Indian_Union_Government_Service_Benefit_".toList ++
      "(input: [\x7b\n    ".toList,
      "\n    node_created_on: \"".toList ++ now ++
      "\"\n  \x7d]) \x7b\n    ".toList ++
      "_Indian_Union_Government_Service_Benefit_".toList ++
      " \x7b\n      id\n    \x7d\n  \x7d\n\x7d".toList, ?_⟩
    have h1 : "(input: [\x7b\n    names: [\x7b name: \"".toList =
        "(input: [\x7b\n    ".toList ++ "names: [\x7b name: \"".toList := by decide
    have h2 : ("\" \x7d]\n    node_created_on: \"".toList : Str) =
        "\" \x7d]".toList ++ "\n    node_created_on: \"".toList := by decide
    rw [hm, h1, h2]
    simp [List.append_assoc]
  · refine ⟨"mutation \x7b\n  add".toList ++
      "_Indian_Union_Government_Service_Benefit_".toList ++
      "(input: [\x7b\n    names: [\x7b name: \"".toList ++
      escapeGraphQL (jsTrim e.text) ++ "\" \x7d]\n    ".toList,
      "\n  \x7d]) \x7b\n    ".toList ++
      "_Indian_Union_Government_Service_Benefit_".toList ++
      " \x7b\n      id\n    \x7d\n  \x7d\n\x7d".toList, ?_⟩
    have h1 : ("\" \x7d]\n    node_created_on: \"".toList : Str) =
        "\" \x7d]\n    ".toList ++ "node_created_on: \"".toList := by decide
    have h2 : ("\"\n  \x7d]) \x7b\n    ".toList : Str) =
        "\"".toList ++ "\n  \x7d]) \x7b\n    ".toList := by decide
    rw [hm, h1, h2]
    simp [List.append_assoc]

/-- C8 witness: the nested entry-node fragment and the timestamp field
are infixes of a concrete benefit entity's mutation at a concrete clock
reading. -/
theorem c8_benefit_inline_creation_witness :
    ("names: [\x7b name: \"".toList ++ escapeGraphQL (jsTrim exBenefit.text) ++
        "\" \x7d]".toList) <:+: (entityMutation exNow exBenefit).mutation ∧
      ("node_created_on: \"".toList ++ exNow ++ "\"".toList) <:+:
        (entityMutation exNow exBenefit).mutation :=
  ⟨(c8_benefit_inline_creation exNow exBenefit rfl).2.1,
   (c8_benefit_inline_creation exNow exBenefit rfl).2.2.1⟩
